import Mathlib

/-
Verification model of the ARBTRONX grid trading engine
(src/strategies/grid_trading_engine.py), shallowly embedded in Lean.

Modelling conventions:
- Python floats (prices, balances, percentages, timestamps) are modelled as
  rationals; wall-clock reads (time.time(), datetime.now()) become explicit
  "now" parameters.
- The exchange collaborator (place_order) is abstracted as a Boolean success
  oracle keyed by the created order's id; the statistics.stdev collaborator is
  abstracted as a function parameter (its exact value is irrelevant to the
  properties proved here, which only exercise the code's fallback branches).
- Python's timestamped string order ids are modelled as unique naturals drawn
  from a counter threaded through every order-creating operation; dict-of-state
  collections are modelled as lists.
- Name resolution follows the running program: the source defines a class
  named GridLevel twice, and the later (line 105) visualization dataclass
  shadows the earlier (line 52) engine dataclass, so the level-construction
  path raises TypeError; fallible paths are modelled with Except and the
  enclosing handlers are translated where they catch.
-/

namespace Arbtronx

/-! Section: Phase tracker (class PhaseTracker, dataclass PhaseInfo) -/

/-- Phase information for the 4-phase roadmap (dataclass PhaseInfo). -/
structure PhaseInfo where
  phase_number : ℕ
  start_capital : ℚ
  target_capital : ℚ
  target_cycles : ℕ
  target_roi_per_cycle : ℚ
  completed_cycles : ℕ
  current_capital : ℚ
  is_complete : Bool
  start_time : Option ℚ := none
  end_time : Option ℚ := none
deriving DecidableEq

/-- Pointwise update of the phases dictionary (self.phases[k] = v). -/
def updPhases (ps : ℕ → PhaseInfo) (k : ℕ) (v : PhaseInfo) : ℕ → PhaseInfo :=
  fun n => if n = k then v else ps n

/-- State of the PhaseTracker.  The Python dict with keys 1..4 is modelled as a
function on ℕ (keys outside 1..4 are never consulted: current_phase stays in
1..4). -/
structure PhaseTracker where
  starting_capital : ℚ
  current_phase : ℕ
  total_cycles_completed : ℕ
  total_profit : ℚ
  start_time : ℚ
  phases : ℕ → PhaseInfo

/-- PhaseTracker.__init__(starting_capital) at wall-clock time now. -/
def PhaseTracker.init (starting_capital now : ℚ) : PhaseTracker :=
  { starting_capital := starting_capital
    current_phase := 1
    total_cycles_completed := 0
    total_profit := 0
    start_time := now
    phases := fun n =>
      if n = 1 then
        { phase_number := 1, start_capital := 200, target_capital := 1000,
          target_cycles := 8, target_roi_per_cycle := 25, completed_cycles := 0,
          current_capital := starting_capital, is_complete := false,
          start_time := some now }
      else if n = 2 then
        { phase_number := 2, start_capital := 1000, target_capital := 5000,
          target_cycles := 8, target_roi_per_cycle := 25, completed_cycles := 0,
          current_capital := 0, is_complete := false }
      else if n = 3 then
        { phase_number := 3, start_capital := 5000, target_capital := 20000,
          target_cycles := 6, target_roi_per_cycle := 25, completed_cycles := 0,
          current_capital := 0, is_complete := false }
      else
        { phase_number := 4, start_capital := 20000, target_capital := 100000,
          target_cycles := 6, target_roi_per_cycle := 20, completed_cycles := 0,
          current_capital := 0, is_complete := false } }

/-- PhaseTracker._complete_phase: seal the current phase and advance (if the
current phase is below 4). -/
def PhaseTracker.complete_phase (t : PhaseTracker) (now : ℚ) : PhaseTracker :=
  let cur := t.phases t.current_phase
  let cur' := { cur with is_complete := true, end_time := some now }
  let t1 := { t with phases := updPhases t.phases t.current_phase cur' }
  if t1.current_phase < 4 then
    let nxt := t1.phases (t1.current_phase + 1)
    let nxt' := { nxt with start_time := some now,
                           current_capital := cur'.current_capital }
    { t1 with current_phase := t1.current_phase + 1,
              phases := updPhases t1.phases (t1.current_phase + 1) nxt' }
  else t1

/-- PhaseTracker.update_capital(new_capital): record capital on the current
phase, then advance only when the capital target is reached (and the phase is
not already complete).  No cycle-count test appears in the source. -/
def PhaseTracker.update_capital (t : PhaseTracker) (now new_capital : ℚ) :
    PhaseTracker :=
  let cur := t.phases t.current_phase
  let cur' := { cur with current_capital := new_capital }
  let t1 := { t with phases := updPhases t.phases t.current_phase cur' }
  if cur'.target_capital ≤ new_capital ∧ cur'.is_complete = false then
    t1.complete_phase now
  else t1

/-- PhaseTracker.complete_cycle(profit, roi_pct): increment the cycle counters
and the running profit.  The source performs no advancement check here. -/
def PhaseTracker.complete_cycle (t : PhaseTracker) (profit _roi_pct : ℚ) :
    PhaseTracker :=
  let cur := t.phases t.current_phase
  { t with
      phases := updPhases t.phases t.current_phase
        { cur with completed_cycles := cur.completed_cycles + 1 },
      total_cycles_completed := t.total_cycles_completed + 1,
      total_profit := t.total_profit + profit }

/-- A call to one of the two public PhaseTracker mutators. -/
inductive PhaseOp
  | updateCapital (now new_capital : ℚ)
  | completedCycle (profit roi_pct : ℚ)

/-- Dispatch one mutator call. -/
def PhaseTracker.applyOp (t : PhaseTracker) : PhaseOp → PhaseTracker
  | .updateCapital now c => t.update_capital now c
  | .completedCycle p r => t.complete_cycle p r

/-! Section: Volatility analyzer (calculate_market_volatility and helpers) -/

/-- One OHLCV candle (the dict built by _get_historical_prices).  The source
field named open is renamed openPrice (reserved word in Lean). -/
structure Candle where
  timestamp : ℚ
  openPrice : ℚ
  high : ℚ
  low : ℚ
  close : ℚ
  volume : ℚ
deriving DecidableEq

/-- Market volatility analysis result (dataclass MarketVolatility). -/
structure MarketVolatility where
  symbol : String
  atr_24h : ℚ
  atr_72h : ℚ
  std_dev_24h : ℚ
  std_dev_72h : ℚ
  price_range_24h : ℚ
  volatility_score : ℚ
  recommended_spacing_pct : ℚ
  confidence_level : String
  last_updated : ℚ
deriving DecidableEq

/-- Per-candle true ranges over consecutive pairs (the loop in
_calculate_atr). -/
def true_ranges : List Candle → List ℚ
  | c1 :: c2 :: rest =>
      max (c2.high - c2.low) (max |c2.high - c1.close| |c2.low - c1.close|) ::
        true_ranges (c2 :: rest)
  | _ => []

/-- GridTradingEngine._calculate_atr: mean of the most recent period true
ranges, with a 0.01 default when fewer than period candles are available. -/
def calculate_atr (price_data : List Candle) (period : ℕ) : ℚ :=
  if price_data.length < period then 1/100
  else
    let trs := true_ranges price_data
    if trs.isEmpty then 1/100
    else (trs.drop (trs.length - period)).sum / ((min period trs.length : ℕ) : ℚ)

/-- GridTradingEngine._calculate_returns: period-over-period returns, skipping
pairs whose previous close is not positive. -/
def calculate_returns : List Candle → List ℚ
  | c1 :: c2 :: rest =>
      (if 0 < c1.close then [(c2.close - c1.close) / c1.close] else []) ++
        calculate_returns (c2 :: rest)
  | _ => []

/-- Python max over a nonempty list (0 on the empty list, which the source
never reaches). -/
def listMax : List ℚ → ℚ
  | [] => 0
  | x :: xs => xs.foldl max x

/-- Python min over a nonempty list (0 on the empty list, which the source
never reaches). -/
def listMin : List ℚ → ℚ
  | [] => 0
  | x :: xs => xs.foldl min x

/-- GridTradingEngine._create_default_volatility: the documented fallback. -/
def create_default_volatility (symbol : String) (now : ℚ) : MarketVolatility :=
  { symbol := symbol, atr_24h := 1/100, atr_72h := 1/100, std_dev_24h := 1/100,
    std_dev_72h := 1/100, price_range_24h := 1/50, volatility_score := 30,
    recommended_spacing_pct := 1/2, confidence_level := "LOW",
    last_updated := now }

/-- GridTradingEngine.calculate_market_volatility, given the two fetched candle
series.  The statistics.stdev collaborator is passed in as stdev; the time-based
cache sits outside this function and is not modelled. -/
def calculate_market_volatility (stdev : List ℚ → ℚ) (symbol : String)
    (price_data_24h price_data_72h : List Candle) (now : ℚ) : MarketVolatility :=
  if price_data_24h.isEmpty || price_data_72h.isEmpty then
    create_default_volatility symbol now
  else
    let atr_24h := calculate_atr price_data_24h 14
    let atr_72h := calculate_atr price_data_72h 14
    let returns_24h := calculate_returns price_data_24h
    let returns_72h := calculate_returns price_data_72h
    let std_dev_24h := if 1 < returns_24h.length then stdev returns_24h else 1/100
    let std_dev_72h := if 1 < returns_72h.length then stdev returns_72h else 1/100
    let prices_24h := price_data_24h.map (·.close)
    let price_range_24h := (listMax prices_24h - listMin prices_24h) / listMin prices_24h
    let volatility_score := min 100 ((std_dev_24h * 100 + price_range_24h * 50) * 2)
    let sc :=
      if volatility_score < 20 then ((3:ℚ)/10, "HIGH")
      else if volatility_score < 40 then (1/2, "HIGH")
      else if volatility_score < 70 then (4/5, "MEDIUM")
      else (6/5, "MEDIUM")
    { symbol := symbol, atr_24h := atr_24h, atr_72h := atr_72h,
      std_dev_24h := std_dev_24h, std_dev_72h := std_dev_72h,
      price_range_24h := price_range_24h, volatility_score := volatility_score,
      recommended_spacing_pct := sc.1, confidence_level := sc.2,
      last_updated := now }

/-! Section: Smart range calculator (calculate_smart_grid_range) -/

/-- Smart grid range calculation result (dataclass SmartGridRange). -/
structure SmartGridRange where
  symbol : String
  base_spacing_pct : ℚ
  smart_spacing_pct : ℚ
  atr_based_spacing : ℚ
  std_dev_based_spacing : ℚ
  final_spacing_pct : ℚ
  volatility_regime : String
  grid_width_usd : ℚ
  recommended_levels : ℕ
  confidence_score : ℚ
deriving DecidableEq

/-- GridTradingEngine.calculate_smart_grid_range, given the (possibly cached)
market volatility.  Faithful on positive prices; at current_price = 0 the
source raises and falls back, a path outside this model. -/
def calculate_smart_grid_range (volatility : MarketVolatility) (symbol : String)
    (base_spacing_pct current_price : ℚ) : SmartGridRange :=
  let atr_pct := volatility.atr_24h / current_price * 100
  let atr_based_spacing := max 0.2 (min 2.0 (atr_pct * 0.8))
  let std_dev_based_spacing := max 0.3 (min 1.5 (volatility.std_dev_24h * 100 * 1.2))
  let smart_spacing :=
    atr_based_spacing * 0.4 + std_dev_based_spacing * 0.3 +
      volatility.recommended_spacing_pct * 0.3
  let rg : String × ℚ × ℕ :=
    if volatility.volatility_score < 20 then ("LOW", smart_spacing * 0.8, 8)
    else if volatility.volatility_score < 40 then ("MEDIUM", smart_spacing, 6)
    else if volatility.volatility_score < 70 then ("HIGH", smart_spacing * 1.2, 5)
    else ("EXTREME", smart_spacing * 1.5, 4)
  let final_spacing := max 0.2 (min 2.5 rg.2.1)
  let grid_width_usd := final_spacing / 100 * current_price * (rg.2.2 : ℚ) * 2
  let confidence_score : ℚ := if volatility.confidence_level = "HIGH" then 0.9 else 0.7
  { symbol := symbol, base_spacing_pct := base_spacing_pct,
    smart_spacing_pct := smart_spacing, atr_based_spacing := atr_based_spacing,
    std_dev_based_spacing := std_dev_based_spacing,
    final_spacing_pct := final_spacing, volatility_regime := rg.1,
    grid_width_usd := grid_width_usd, recommended_levels := rg.2.2,
    confidence_score := confidence_score }

/-! Section: Grid data model (enums and dataclasses of the engine) -/

/-- Order status enum (class GridOrderStatus).  The source enum defines exactly
these four members: PENDING, ACTIVE, FILLED, CANCELLED. -/
inductive GridOrderStatus
  | pending
  | active
  | filled
  | cancelled
deriving DecidableEq

/-- One grid order (dataclass GridOrder).  The source's timestamped string
order id is modelled as a unique natural drawn from a counter. -/
structure GridOrder where
  order_id : ℕ
  grid_id : String
  symbol : String
  side : String
  price : ℚ
  amount : ℚ
  level : ℤ
  status : GridOrderStatus
  exchange : String
  created_at : ℚ
  filled_at : Option ℚ := none
  filled_price : Option ℚ := none
  profit : ℚ := 0
deriving DecidableEq

/-- The grid-level class as bound at runtime.  The source module defines a
class named GridLevel twice: an engine dataclass at line 52 (integer level
index, target price, optional buy/sell order references) and this
visualization dataclass at line 105.  Python resolves every runtime reference
to the second, later binding, so the line-52 shape is shadowed and no instance
of it can ever be constructed; in particular the constructor calls
GridLevel(level=..., price=...) inside _calculate_grid_levels address this
class, which has no level parameter, and raise TypeError. -/
structure GridLevel where
  price : ℚ
  order_type : String
  order_id : Option String
  quantity : ℚ
  filled_quantity : ℚ
  fill_percentage : ℚ
  profit_potential : ℚ
  created_at : ℚ
  status : String
  distance_from_market : ℚ
deriving DecidableEq

/-- Python exception as observed by the engine's try/except handlers. -/
inductive PyError
  | typeError (msg : String)
deriving DecidableEq

/-- Exception message carried to str(e) in the handlers. -/
def PyError.message : PyError → String
  | .typeError m => m

/-- The TypeError raised by GridLevel(level=..., price=...) at runtime: the
shadowing visualization dataclass accepts no keyword named level. -/
def grid_level_type_error : PyError :=
  .typeError "GridLevel() got an unexpected keyword argument"

/-- Grid configuration (dataclass GridConfiguration). -/
structure GridConfiguration where
  symbol : String
  exchange : String
  center_price : ℚ
  grid_spacing_pct : ℚ
  levels_above : ℕ
  levels_below : ℕ
  order_size_usd : ℚ
  profit_target_pct : ℚ
  stop_loss_pct : ℚ
  max_capital_usd : ℚ
  use_smart_range : Bool := true
  atr_period : ℕ := 24
  volatility_multiplier : ℚ := 1.5
deriving DecidableEq

/-- Per-grid statistics (dataclass GridStats). -/
structure GridStats where
  grid_id : String
  symbol : String
  total_cycles : ℕ
  profitable_cycles : ℕ
  total_profit : ℚ
  total_fees : ℚ
  net_profit : ℚ
  win_rate : ℚ
  avg_cycle_time : ℚ
  active_orders : ℕ
  created_at : ℚ
  last_cycle_at : Option ℚ := none
deriving DecidableEq

/-- One entry of self.active_grids (the grid_data dict built in create_grid). -/
structure GridData where
  grid_id : String
  config : GridConfiguration
  levels : List GridLevel
  status : String
  created_at : ℚ
  total_invested : ℚ
  unrealized_pnl : ℚ
  realized_pnl : ℚ
deriving DecidableEq

/-- The engine state touched by grid creation (dicts modelled as lists). -/
structure Engine where
  active_grids : List GridData
  grid_orders : List GridOrder
  grid_stats : List (String × GridStats)
  total_grids_created : ℕ
  total_profit : ℚ
  total_cycles : ℕ
deriving DecidableEq

/-- Fresh engine state. -/
def Engine.init : Engine :=
  { active_grids := [], grid_orders := [], grid_stats := [],
    total_grids_created := 0, total_profit := 0, total_cycles := 0 }

/-! Section: Grid builder (_calculate_grid_levels, _create_grid_order,
_place_initial_grid_orders, create_grid) -/

/-- One side loop of _calculate_grid_levels at runtime: each iteration calls
GridLevel(level=..., price=...), which addresses the shadowing visualization
dataclass and raises TypeError on the first iteration; only a count of zero
iterations returns normally (with nothing appended). -/
def build_levels_loop : ℕ → Except PyError (List GridLevel)
  | 0 => .ok []
  | _ + 1 => .error grid_level_type_error

/-- GridTradingEngine._calculate_grid_levels as it behaves at runtime: the
below-centre loop runs first, then the above-centre loop; any configuration
with at least one level raises TypeError (shadowed GridLevel), and only the
degenerate zero-level configuration returns -- with the empty list (the final
sort by the level attribute is applied to that empty list only and never
touches an element). -/
def calculate_grid_levels (config : GridConfiguration) :
    Except PyError (List GridLevel) :=
  match build_levels_loop config.levels_below with
  | .error e => .error e
  | .ok below =>
    match build_levels_loop config.levels_above with
    | .error e => .error e
    | .ok above => .ok (below ++ above)

/-- GridTradingEngine._create_grid_order: build the order, submit it through
the exchange oracle, and return it as ACTIVE on success.  On a failed or
raising submission the source attempts to assign the nonexistent enum member
GridOrderStatus.FAILED (an AttributeError swallowed by the outer handler) and
returns None without storing the order; the net observable effect modelled here
is exactly: no order is returned and no order is stored.  The id counter n is
also the key into the success oracle.  At runtime no call site of this
function is reachable -- grid creation fails before placement and no grid with
levels is ever registered for the monitor -- but the definition embeds the
source text of _create_grid_order as written. -/
def create_grid_order (place_order : ℕ → Bool) (n : ℕ)
    (grid_id symbol side : String) (price amount : ℚ) (level : ℤ)
    (exchange : String) (now : ℚ) : Option GridOrder × ℕ :=
  let order : GridOrder :=
    { order_id := n, grid_id := grid_id, symbol := symbol, side := side,
      price := price, amount := amount, level := level,
      status := .pending, exchange := exchange, created_at := now }
  if place_order n then (some { order with status := .active }, n + 1)
  else (none, n + 1)

/-- Result dict of _place_initial_grid_orders. -/
structure PlaceResult where
  success : Bool
  message : String
  orders_placed : ℕ
  capital_used : ℚ
deriving DecidableEq

/-- GridTradingEngine._place_initial_grid_orders over the stored level list.
The loop body reads level.level on each element, an attribute the runtime
GridLevel (visualization dataclass) does not have, so a nonempty list raises
AttributeError which the function converts to a failure result through its own
handler; on every reachable call the list is empty (the only level list ever
stored is the empty one) and the loop places nothing and reports success. -/
def place_initial_grid_orders (levels : List GridLevel) : PlaceResult :=
  match levels with
  | [] =>
      { success := true, message := "", orders_placed := 0, capital_used := 0 }
  | _ :: _ =>
      { success := false, message := "AttributeError", orders_placed := 0,
        capital_used := 0 }

/-- Result dict of create_grid. -/
structure CreateResult where
  success : Bool
  error : String := ""
  message : String := ""
  grid_id : String := ""
  orders_placed : ℕ := 0
  grid_levels : ℕ := 0
  capital_used : ℚ := 0
deriving DecidableEq

/-- GridTradingEngine.create_grid from the point where the configuration object
has been assembled (smart-range adjustment happens upstream of this point), as
it behaves at runtime.  _calculate_grid_levels raises TypeError for any
configuration with at least one level (shadowed GridLevel); the exception
propagates to the outer handler before the grid or its stats are stored, and
the call returns success false with error GRID_CREATION_ERROR and the engine
state untouched.  Only the degenerate zero-level configuration reaches
registration: the grid is stored with an empty level list, the placement loop
has nothing to place, and the call succeeds with zero orders. -/
def create_grid (st : Engine) (grid_id : String) (config : GridConfiguration)
    (now : ℚ) : CreateResult × Engine :=
  match calculate_grid_levels config with
  | .error e =>
      ({ success := false, error := "GRID_CREATION_ERROR",
         message := e.message }, st)
  | .ok levels =>
      let grid_data : GridData :=
        { grid_id := grid_id, config := config, levels := levels,
          status := "active", created_at := now, total_invested := 0,
          unrealized_pnl := 0, realized_pnl := 0 }
      let stats : GridStats :=
        { grid_id := grid_id, symbol := config.symbol, total_cycles := 0,
          profitable_cycles := 0, total_profit := 0, total_fees := 0,
          net_profit := 0, win_rate := 0, avg_cycle_time := 0,
          active_orders := 0, created_at := now }
      let pr := place_initial_grid_orders levels
      if pr.success = false then
        ({ success := false, error := "FAILED_TO_PLACE_ORDERS",
           message := pr.message },
         { st with grid_stats := st.grid_stats ++ [(grid_id, stats)] })
      else
        let stats2 := { stats with active_orders := pr.orders_placed }
        ({ success := true, message := "REAL grid created", grid_id := grid_id,
           orders_placed := pr.orders_placed, grid_levels := levels.length,
           capital_used := pr.capital_used },
         { st with active_grids := st.active_grids ++ [grid_data],
                   grid_stats := st.grid_stats ++ [(grid_id, stats2)],
                   total_grids_created := st.total_grids_created + 1 })


/-! Section: Auto-compounder (auto_compound_and_rebalance) -/

/-- Result dict of auto_compound_and_rebalance. -/
structure CompoundResult where
  success : Bool
  message : String
  rebalanced : Bool
  capital_per_grid : ℚ
  grids_created : ℕ
deriving DecidableEq

/-- GridTradingEngine.auto_compound_and_rebalance(new_balance).  State in:
the enabled flag, the phase tracker, the last rebalance time and the count of
active grids; the stop/recreate collaborators are abstracted as the per-symbol
success oracle grid_ok over the fixed five-symbol set.  Returns the result
dict, the updated phase tracker and the updated last rebalance time. -/
def auto_compound_and_rebalance (enabled : Bool) (tracker : PhaseTracker)
    (last_rebalance_time now new_balance : ℚ) (num_active_grids : ℕ)
    (grid_ok : ℕ → Bool) : CompoundResult × PhaseTracker × ℚ :=
  if enabled = false then
    ({ success := false, message := "Auto-compounding disabled",
       rebalanced := false, capital_per_grid := 0, grids_created := 0 },
     tracker, last_rebalance_time)
  else
    let tracker' := tracker.update_capital now new_balance
    let time_since_rebalance := now - last_rebalance_time
    if 3600 < time_since_rebalance ∧ 0 < num_active_grids then
      let available_capital := new_balance * 0.95
      let capital_per_grid := available_capital / 5
      let grids_created :=
        (List.range 5).countP fun i => decide (20 ≤ capital_per_grid) && grid_ok i
      ({ success := true, message := "Auto-compounded and rebalanced",
         rebalanced := true, capital_per_grid := capital_per_grid,
         grids_created := grids_created }, tracker', now)
    else
      ({ success := true, message := "Capital updated, no rebalancing needed",
         rebalanced := false, capital_per_grid := 0, grids_created := 0 },
       tracker', last_rebalance_time)

/-! Section: Phase tracker lemmas and claim theorems -/

lemma complete_cycle_phase (t : PhaseTracker) (p r : ℚ) :
    (t.complete_cycle p r).current_phase = t.current_phase := rfl

lemma update_capital_phase (t : PhaseTracker) (now c : ℚ) :
    (t.update_capital now c).current_phase =
      if (t.phases t.current_phase).target_capital ≤ c ∧
         (t.phases t.current_phase).is_complete = false ∧ t.current_phase < 4
      then t.current_phase + 1 else t.current_phase := by
  simp only [PhaseTracker.update_capital, PhaseTracker.complete_phase]
  split_ifs with h1 h2 h3 <;> first | rfl | (exfalso; tauto)

lemma applyOp_phase (t : PhaseTracker) (op : PhaseOp) :
    (t.applyOp op).current_phase = t.current_phase ∨
      ((t.applyOp op).current_phase = t.current_phase + 1 ∧
        t.current_phase < 4) := by
  cases op with
  | updateCapital now c =>
      simp only [PhaseTracker.applyOp]
      rw [update_capital_phase]
      split_ifs with h
      · exact Or.inr ⟨rfl, h.2.2⟩
      · exact Or.inl rfl
  | completedCycle p r => exact Or.inl rfl

/-- Operation list used as the concrete refutation input for the cycle-count
advancement claim: eight recorded cycles with no capital growth. -/
def c1_ops : List PhaseOp := List.replicate 8 (PhaseOp.completedCycle 0 0)

/-- Phase tracker state after eight completed cycles from the initial state. -/
def c1_state : PhaseTracker :=
  c1_ops.foldl PhaseTracker.applyOp (PhaseTracker.init 200 0)

/-- C1 counterexample: after eight recorded cycles (meeting phase 1's
cycle-count target of 8) with capital still 200, below the 1000 capital
target, the tracker is still in phase 1 -- recording enough completed cycles
alone does not advance the phase, contradicting the claim. -/
theorem c1_counterexample :
    c1_state.current_phase = 1 ∧
    (c1_state.phases 1).completed_cycles = (c1_state.phases 1).target_cycles ∧
    (c1_state.phases 1).current_capital < (c1_state.phases 1).target_capital := by
  norm_num [c1_state, c1_ops, PhaseTracker.applyOp, PhaseTracker.complete_cycle,
    PhaseTracker.init, updPhases, List.replicate]

/-- C1 amended: recording a completed cycle never changes the current phase;
only a capital update advances it, and exactly when the new capital reaches the
current phase's capital target (with the phase not yet complete and below
phase 4). -/
theorem c1_theorem :
    (∀ (t : PhaseTracker) (profit roi_pct : ℚ),
        (t.complete_cycle profit roi_pct).current_phase = t.current_phase) ∧
    (∀ (t : PhaseTracker) (now c : ℚ),
        (t.update_capital now c).current_phase =
          if (t.phases t.current_phase).target_capital ≤ c ∧
             (t.phases t.current_phase).is_complete = false ∧
             t.current_phase < 4
          then t.current_phase + 1 else t.current_phase) :=
  ⟨fun t p r => complete_cycle_phase t p r,
   fun t now c => update_capital_phase t now c⟩

/-- C10: under every sequence of update_capital and complete_cycle calls the
current phase stays within 1..4, and a single call never decreases the phase
and advances it by at most one. -/
theorem c10_theorem :
    (∀ (cap now : ℚ) (ops : List PhaseOp),
        1 ≤ (ops.foldl PhaseTracker.applyOp (PhaseTracker.init cap now)).current_phase ∧
        (ops.foldl PhaseTracker.applyOp (PhaseTracker.init cap now)).current_phase ≤ 4) ∧
    (∀ (t : PhaseTracker) (op : PhaseOp),
        t.current_phase ≤ (t.applyOp op).current_phase ∧
        (t.applyOp op).current_phase ≤ t.current_phase + 1) := by
  constructor
  · intro cap now ops
    have main : ∀ (l : List PhaseOp) (t : PhaseTracker),
        1 ≤ t.current_phase → t.current_phase ≤ 4 →
        1 ≤ (l.foldl PhaseTracker.applyOp t).current_phase ∧
        (l.foldl PhaseTracker.applyOp t).current_phase ≤ 4 := by
      intro l
      induction l with
      | nil => intro t h1 h4; exact ⟨h1, h4⟩
      | cons op rest ih =>
          intro t h1 h4
          simp only [List.foldl_cons]
          rcases applyOp_phase t op with h | ⟨h, hlt⟩
          · exact ih _ (by omega) (by omega)
          · exact ih _ (by omega) (by omega)
    exact main ops _ (by norm_num [PhaseTracker.init]) (by norm_num [PhaseTracker.init])
  · intro t op
    rcases applyOp_phase t op with h | ⟨h, _⟩ <;> omega

/-! Section: Volatility analyzer claim theorems -/

/-- Candle used in the single-candle refutation input. -/
def c7_candle : Candle :=
  { timestamp := 0, openPrice := 100, high := 100, low := 100, close := 100,
    volume := 0 }

/-- C7 counterexample: a 24h series with exactly one candle (fewer than 2) does
not produce the documented default MarketVolatility; the computation proceeds
with the fallback constants and yields volatility score 2 (not 30), spacing
0.3 percent (not 0.5) and confidence HIGH (not LOW). -/
theorem c7_counterexample :
    (calculate_market_volatility (fun _ => 0) "PEPE/USDT" [c7_candle]
        [c7_candle, c7_candle] 5).volatility_score = 2 ∧
    (calculate_market_volatility (fun _ => 0) "PEPE/USDT" [c7_candle]
        [c7_candle, c7_candle] 5).recommended_spacing_pct = 3/10 ∧
    (calculate_market_volatility (fun _ => 0) "PEPE/USDT" [c7_candle]
        [c7_candle, c7_candle] 5).confidence_level = "HIGH" ∧
    (create_default_volatility "PEPE/USDT" 5).volatility_score = 30 ∧
    (create_default_volatility "PEPE/USDT" 5).recommended_spacing_pct = 1/2 ∧
    (create_default_volatility "PEPE/USDT" 5).confidence_level = "LOW" := by
  norm_num [calculate_market_volatility, calculate_atr, calculate_returns,
    true_ranges, listMax, listMin, create_default_volatility, c7_candle]

/-- C7 amended: when either fetched candle series is empty the volatility
computation returns the documented default (volatility score 30, spacing 0.5
percent, confidence LOW) instead of failing; a one-candle series instead flows
through the computation with fallback ATR and standard-deviation constants. -/
theorem c7_theorem :
    (∀ (stdev : List ℚ → ℚ) (symbol : String) (d72 : List Candle) (now : ℚ),
        calculate_market_volatility stdev symbol [] d72 now =
          create_default_volatility symbol now) ∧
    (∀ (stdev : List ℚ → ℚ) (symbol : String) (d24 : List Candle) (now : ℚ),
        calculate_market_volatility stdev symbol d24 [] now =
          create_default_volatility symbol now) := by
  constructor <;> intro stdev symbol l now <;>
    simp [calculate_market_volatility]

/-! Section: Smart range claim theorems -/

/-- C6: for every market-volatility input (all volatility scores, ATR values,
standard deviations) and every base spacing, the smart range computation
returns a final spacing percentage in the closed interval from 0.2 to 2.5.
The positive-price hypothesis marks the domain on which the embedding is
faithful (at price 0 the source raises and falls back). -/
theorem c6_theorem (volatility : MarketVolatility) (symbol : String)
    (base_spacing_pct current_price : ℚ) (_h : 0 < current_price) :
    0.2 ≤ (calculate_smart_grid_range volatility symbol base_spacing_pct
        current_price).final_spacing_pct ∧
    (calculate_smart_grid_range volatility symbol base_spacing_pct
      current_price).final_spacing_pct ≤ 2.5 := by
  refine ⟨?_, ?_⟩ <;> simp only [calculate_smart_grid_range]
  · exact le_max_left _ _
  · exact max_le (by norm_num) (min_le_left _ _)

/-- Witness for the spacing-bounds theorem at a concrete input. -/
theorem c6_witness :
    0 < (100 : ℚ) ∧
    (0.2 ≤ (calculate_smart_grid_range (create_default_volatility "BTC/USDT" 0)
        "BTC/USDT" 0.5 100).final_spacing_pct ∧
     (calculate_smart_grid_range (create_default_volatility "BTC/USDT" 0)
        "BTC/USDT" 0.5 100).final_spacing_pct ≤ 2.5) :=
  ⟨by norm_num,
   c6_theorem (create_default_volatility "BTC/USDT" 0) "BTC/USDT" 0.5 100
     (by norm_num)⟩

lemma smart_range_levels (v : MarketVolatility) (symbol : String) (b p : ℚ) :
    (calculate_smart_grid_range v symbol b p).recommended_levels =
      if v.volatility_score < 20 then 8
      else if v.volatility_score < 40 then 6
      else if v.volatility_score < 70 then 5
      else 4 := by
  simp only [calculate_smart_grid_range]
  split_ifs <;> rfl

/-- C9: the recommended level count is 8 below score 20, 6 below 40, 5 below
70 and 4 otherwise, and is a non-increasing function of the volatility
score. -/
theorem c9_theorem :
    (∀ (v : MarketVolatility) (symbol : String) (b p : ℚ),
        (calculate_smart_grid_range v symbol b p).recommended_levels =
          if v.volatility_score < 20 then 8
          else if v.volatility_score < 40 then 6
          else if v.volatility_score < 70 then 5
          else 4) ∧
    (∀ (v : MarketVolatility) (symbol : String) (b p s₁ s₂ : ℚ), s₁ ≤ s₂ →
        (calculate_smart_grid_range { v with volatility_score := s₂ } symbol
            b p).recommended_levels ≤
          (calculate_smart_grid_range { v with volatility_score := s₁ } symbol
            b p).recommended_levels) := by
  refine ⟨fun v symbol b p => smart_range_levels v symbol b p, ?_⟩
  intro v symbol b p s₁ s₂ h
  rw [smart_range_levels, smart_range_levels]
  dsimp only
  split_ifs <;> linarith

/-- Witness for the regime-monotonicity theorem at scores 10 and 50. -/
theorem c9_witness :
    (10 : ℚ) ≤ 50 ∧
    (calculate_smart_grid_range
        { create_default_volatility "BTC/USDT" 0 with volatility_score := 50 }
        "BTC/USDT" 0.5 100).recommended_levels ≤
      (calculate_smart_grid_range
        { create_default_volatility "BTC/USDT" 0 with volatility_score := 10 }
        "BTC/USDT" 0.5 100).recommended_levels :=
  ⟨by norm_num,
   c9_theorem.2 (create_default_volatility "BTC/USDT" 0) "BTC/USDT" 0.5 100
     10 50 (by norm_num)⟩

/-! Section: Grid level claim theorems -/

lemma calculate_grid_levels_raises (config : GridConfiguration)
    (h : 0 < config.levels_below ∨ 0 < config.levels_above) :
    calculate_grid_levels config = .error grid_level_type_error := by
  rcases hb : config.levels_below with _ | n
  · rcases ha : config.levels_above with _ | m
    · rw [hb, ha] at h
      exact absurd h (by norm_num)
    · simp [calculate_grid_levels, build_levels_loop, hb, ha]
  · simp [calculate_grid_levels, build_levels_loop, hb]

/-- Scenario configuration of the specification: spacing 0.5 percent, five
levels each side, centre 100, order size 20. -/
def c5_config : GridConfiguration :=
  { symbol := "BTC/USDT", exchange := "binance", center_price := 100,
    grid_spacing_pct := 0.5, levels_above := 5, levels_below := 5,
    order_size_usd := 20, profit_target_pct := 1, stop_loss_pct := 5,
    max_capital_usd := 100 }

/-- Degenerate configuration with no levels on either side: the only shape of
configuration whose level computation returns at all. -/
def c5_empty_config : GridConfiguration :=
  { symbol := "BTC/USDT", exchange := "binance", center_price := 100,
    grid_spacing_pct := 0.5, levels_above := 0, levels_below := 0,
    order_size_usd := 20, profit_target_pct := 1, stop_loss_pct := 5,
    max_capital_usd := 100 }

/-- C5: the level computation of the running program never produces a level.
At the scenario configuration -- and at every configuration with at least one
level -- it raises TypeError, because the name GridLevel is bound to the
visualization dataclass, which has no level parameter; create_grid catches the
exception and returns GRID_CREATION_ERROR with the engine state untouched.
Only a configuration with zero levels on both sides returns, and then with the
empty list.  The claimed five buy levels at 99.50 through 97.50 and five sell
placeholders are never produced. -/
theorem c5_theorem :
    calculate_grid_levels c5_config = .error grid_level_type_error ∧
    (create_grid Engine.init "g5" c5_config 0).1.success = false ∧
    (create_grid Engine.init "g5" c5_config 0).1.error =
      "GRID_CREATION_ERROR" ∧
    (create_grid Engine.init "g5" c5_config 0).2 = Engine.init ∧
    (∀ config : GridConfiguration,
        0 < config.levels_below ∨ 0 < config.levels_above →
        calculate_grid_levels config = .error grid_level_type_error) ∧
    (∀ config : GridConfiguration, config.levels_below = 0 →
        config.levels_above = 0 → calculate_grid_levels config = .ok []) := by
  refine ⟨?_, ?_, ?_, ?_, calculate_grid_levels_raises, ?_⟩
  · norm_num [calculate_grid_levels, build_levels_loop, c5_config]
  · norm_num [create_grid, calculate_grid_levels, build_levels_loop, c5_config]
  · norm_num [create_grid, calculate_grid_levels, build_levels_loop, c5_config]
  · norm_num [create_grid, calculate_grid_levels, build_levels_loop, c5_config]
  · intro config h1 h2
    simp [calculate_grid_levels, build_levels_loop, h1, h2]

/-- Witness for the level-computation theorem: the raising conjunct applied at
the scenario configuration and the returning conjunct at the zero-level
configuration. -/
theorem c5_witness :
    (0 < c5_config.levels_below ∨ 0 < c5_config.levels_above) ∧
    calculate_grid_levels c5_config = .error grid_level_type_error ∧
    (c5_empty_config.levels_below = 0 ∧ c5_empty_config.levels_above = 0) ∧
    calculate_grid_levels c5_empty_config = .ok [] :=
  ⟨Or.inl (by norm_num [c5_config]),
   c5_theorem.2.2.2.2.1 c5_config (Or.inl (by norm_num [c5_config])),
   ⟨rfl, rfl⟩,
   c5_theorem.2.2.2.2.2 c5_empty_config rfl rfl⟩

/-! Section: Grid creation claim theorems -/

/-- Two-buy-level configuration from the rollback claim scenario. -/
def c2_config : GridConfiguration :=
  { symbol := "BTC/USDT", exchange := "binance", center_price := 100,
    grid_spacing_pct := 1, levels_above := 0, levels_below := 2,
    order_size_usd := 20, profit_target_pct := 1, stop_loss_pct := 5,
    max_capital_usd := 100 }

/-- C2: create_grid never reaches order placement.  For every configuration
with at least one grid level the level computation raises TypeError (shadowed
GridLevel) before the grid, its stats or any order exist; the exception is
caught by the outer handler and the call returns success false with
GRID_CREATION_ERROR, leaving the engine state exactly as it was -- no grid
registered, no order placed, nothing to cancel.  The claimed
submission-failure rollback path is unreachable. -/
theorem c2_theorem (st : Engine) (grid_id : String)
    (config : GridConfiguration) (now : ℚ)
    (h : 0 < config.levels_below ∨ 0 < config.levels_above) :
    (create_grid st grid_id config now).1.success = false ∧
    (create_grid st grid_id config now).1.error = "GRID_CREATION_ERROR" ∧
    (create_grid st grid_id config now).2 = st := by
  have hcalc := calculate_grid_levels_raises config h
  refine ⟨?_, ?_, ?_⟩ <;> simp [create_grid, hcalc]

/-- Witness for the creation-failure theorem at the two-buy-level
configuration. -/
theorem c2_witness :
    (0 < c2_config.levels_below ∨ 0 < c2_config.levels_above) ∧
    ((create_grid Engine.init "g1" c2_config 0).1.success = false ∧
     (create_grid Engine.init "g1" c2_config 0).1.error =
       "GRID_CREATION_ERROR" ∧
     (create_grid Engine.init "g1" c2_config 0).2 = Engine.init) :=
  ⟨Or.inl (by norm_num [c2_config]),
   c2_theorem Engine.init "g1" c2_config 0 (Or.inl (by norm_num [c2_config]))⟩

/-! Section: Order failure claim theorems -/

/-- C3: the order status enum of the source defines exactly the four members
PENDING, ACTIVE, FILLED and CANCELLED -- FAILED does not exist in the order
state machine -- and a rejected submission yields no surfaced order at all:
_create_grid_order, whose failure branches would assign the nonexistent
GridOrderStatus.FAILED (an AttributeError the outer handler swallows), returns
none, consuming the order id and storing nothing. -/
theorem c3_theorem :
    (∀ s : GridOrderStatus,
        s = .pending ∨ s = .active ∨ s = .filled ∨ s = .cancelled) ∧
    (create_grid_order (fun _ => false) 0 "g1" "BTC/USDT" "buy" 99 0.2 (-1)
        "binance" 0).1 = none ∧
    (create_grid_order (fun _ => false) 0 "g1" "BTC/USDT" "buy" 99 0.2 (-1)
        "binance" 0).2 = 1 := by
  refine ⟨?_, ?_, ?_⟩
  · intro s; cases s
    · exact Or.inl rfl
    · exact Or.inr (Or.inl rfl)
    · exact Or.inr (Or.inr (Or.inl rfl))
    · exact Or.inr (Or.inr (Or.inr rfl))
  · norm_num [create_grid_order]
  · norm_num [create_grid_order]

/-! Section: Profit cycle claim theorems -/

/-- Configuration of the profit-cycle scenario: one level each side of centre
100, spacing 1 percent, order size 20, profit target 1 percent. -/
def c4_config : GridConfiguration :=
  { symbol := "BTC/USDT", exchange := "binance", center_price := 100,
    grid_spacing_pct := 1, levels_above := 1, levels_below := 1,
    order_size_usd := 20, profit_target_pct := 1, stop_loss_pct := 5,
    max_capital_usd := 100 }

/-- C4: the profit-cycle scenario can never begin.  Creating its grid fails
with GRID_CREATION_ERROR (TypeError from the shadowed GridLevel) before any
level or order exists, so no grid is registered with the engine, the monitor
never sees an ACTIVE buy at 99.00, no sell at 99.99 is ever created, and no
profit is ever credited nor any buy replaced. -/
theorem c4_theorem :
    (create_grid Engine.init "g4" c4_config 0).1.success = false ∧
    (create_grid Engine.init "g4" c4_config 0).1.error =
      "GRID_CREATION_ERROR" ∧
    (create_grid Engine.init "g4" c4_config 0).2.active_grids = [] ∧
    (create_grid Engine.init "g4" c4_config 0).2.grid_orders = [] := by
  refine ⟨?_, ?_, ?_, ?_⟩ <;>
    norm_num [create_grid, calculate_grid_levels, build_levels_loop,
      c4_config, Engine.init]

/-! Section: Auto-compounder claim theorems -/

/-- Fresh phase tracker used in the auto-compound refutation inputs. -/
def c8_tracker : PhaseTracker := PhaseTracker.init 200 0

/-- C8 counterexample, two parts.  First, with auto-compounding disabled, two
hours elapsed and one active grid (the claimed rebalance condition holds), no
rebalance happens and the tracked capital is not even updated (it stays 200
although the new balance is 300).  Second, with auto-compounding enabled and
exactly one hour (3600 s) elapsed -- "at least one hour" per the claim -- the
strict comparison in the source still reports no rebalance. -/
theorem c8_counterexample :
    ((auto_compound_and_rebalance false c8_tracker 0 7200 300 1
        fun _ => true).1.rebalanced = false ∧
     (((auto_compound_and_rebalance false c8_tracker 0 7200 300 1
        fun _ => true).2.1.phases 1).current_capital = 200)) ∧
    (auto_compound_and_rebalance true c8_tracker 0 3600 300 1
        fun _ => true).1.rebalanced = false := by
  refine ⟨⟨?_, ?_⟩, ?_⟩ <;>
    norm_num [auto_compound_and_rebalance, c8_tracker, PhaseTracker.init,
      PhaseTracker.update_capital, PhaseTracker.complete_phase, updPhases]

/-- C8 amended: when auto-compounding is enabled the call always forwards the
balance to the phase tracker, and performs a rebalance exactly when strictly
more than one hour (3600 s) has elapsed since the last rebalance AND at least
one grid is active; in that case capital per grid is 95 percent of the balance
divided over the five fixed symbols (grids recreated only for shares of at
least 20), and otherwise only the tracked capital changes and no rebalance is
reported.  When auto-compounding is disabled nothing happens at all. -/
theorem c8_theorem (tracker : PhaseTracker)
    (last_rebalance_time now new_balance : ℚ) (num_active_grids : ℕ)
    (grid_ok : ℕ → Bool) :
    (auto_compound_and_rebalance true tracker last_rebalance_time now
        new_balance num_active_grids grid_ok).1.success = true ∧
    (auto_compound_and_rebalance true tracker last_rebalance_time now
        new_balance num_active_grids grid_ok).1.rebalanced =
      decide (3600 < now - last_rebalance_time ∧ 0 < num_active_grids) ∧
    (auto_compound_and_rebalance true tracker last_rebalance_time now
        new_balance num_active_grids grid_ok).2.1 =
      tracker.update_capital now new_balance ∧
    (auto_compound_and_rebalance true tracker last_rebalance_time now
        new_balance num_active_grids grid_ok).2.2 =
      (if 3600 < now - last_rebalance_time ∧ 0 < num_active_grids then now
       else last_rebalance_time) ∧
    (auto_compound_and_rebalance true tracker last_rebalance_time now
        new_balance num_active_grids grid_ok).1.capital_per_grid =
      (if 3600 < now - last_rebalance_time ∧ 0 < num_active_grids then
        new_balance * 0.95 / 5
       else 0) ∧
    (auto_compound_and_rebalance true tracker last_rebalance_time now
        new_balance num_active_grids grid_ok).1.grids_created =
      (if 3600 < now - last_rebalance_time ∧ 0 < num_active_grids then
        (List.range 5).countP fun i =>
          decide (20 ≤ new_balance * 0.95 / 5) && grid_ok i
       else 0) ∧
    (auto_compound_and_rebalance false tracker last_rebalance_time now
        new_balance num_active_grids grid_ok) =
      ({ success := false, message := "Auto-compounding disabled",
         rebalanced := false, capital_per_grid := 0, grids_created := 0 },
       tracker, last_rebalance_time) := by
  simp only [auto_compound_and_rebalance]
  by_cases h : 3600 < now - last_rebalance_time ∧ 0 < num_active_grids
  · simp [h]
  · simp [h]

end Arbtronx
